import Mathlib

/-!
Verification of the nerva-pi-server repository: a shallow embedding in Lean 4 of
`network_monitor.py` (connectivity supervisor, process controller, address
detection cascade) and `stats_broadcaster.py` (WebSocket stats broadcaster:
subscriber registry, broadcast tick, client handler, stats collector, simulated
sensors).  Effectful Python code is modelled by explicit environments that carry
the outcomes of OS / library calls (subprocess results, socket results,
exceptions); machine reals are modelled by rationals.
-/

namespace NervaPi

/-! ## Connectivity supervisor (`network_monitor.py`, `NetworkMonitor`) -/

/-- The mutable fields of a `NetworkMonitor` instance that `check_connection`,
`_start_server` and `_stop_server` read or write (`__init__`, network_monitor.py
lines 29-36). `server_process` holds the pid of a directly launched broadcaster
process, or `none`. -/
structure NMState where
  interface : String
  check_interval : Nat
  script_path : String
  server_process : Option Nat
  is_connected : Bool
  last_ip : Option String
  running : Bool
deriving Repr, DecidableEq

/-- Environment for one `check_connection` poll: the outcome of
`get_interface_ip()` (detected address or `None`), of
`_test_internet_connectivity()` (evaluated only when an address is present), of
the `_is_server_running()` checks made inside the poll, and the result the
embedded `_start_server` would report. -/
structure PollEnv where
  address : Option String
  internetOk : Bool
  serverRunning : Bool
  startResult : Bool
deriving Repr, DecidableEq

/-- Actions `check_connection` can perform on the process controller. -/
inductive CtlAction where
  | start
  | stop
deriving Repr, DecidableEq

/-- Shallow embedding of `NetworkMonitor.check_connection` (network_monitor.py
lines 223-257).  Returns the updated monitor state together with the list of
process-controller actions performed, in order.  The branch structure mirrors
the source: address present and internet ok splits on
`not self.is_connected or current_ip != self.last_ip` and then
`elif self.is_connected`; `_start_server` is invoked only after an
`_is_server_running()` check that returned false; the no-internet branch clears
`is_connected` but not `last_ip`; the no-address branch clears both. -/
def check_connection (s : NMState) (env : PollEnv) : NMState × List CtlAction :=
  match env.address with
  | some ip =>
    if env.internetOk then
      if !s.is_connected || some ip ≠ s.last_ip then
        let s' := { s with is_connected := true, last_ip := some ip }
        if !env.serverRunning then (s', [CtlAction.start]) else (s', [])
      else if s.is_connected then
        if !env.serverRunning then (s, [CtlAction.start]) else (s, [])
      else (s, [])
    else
      if s.is_connected then
        ({ s with is_connected := false }, [CtlAction.stop])
      else (s, [])
  | none =>
    if s.is_connected then
      ({ s with is_connected := false, last_ip := none }, [CtlAction.stop])
    else (s, [])

/-- Number of `start` actions in an action list. -/
def startCount (l : List CtlAction) : Nat :=
  (l.filter (fun a => a = CtlAction.start)).length

/-- Number of `stop` actions in an action list. -/
def stopCount (l : List CtlAction) : Nat :=
  (l.filter (fun a => a = CtlAction.stop)).length

/-- The initial supervisor state (`__init__`, network_monitor.py lines 29-36):
disconnected, no recorded address, no held process handle. -/
def initialNMState (iface : String) (interval : Nat) (script : String) : NMState :=
  { interface := iface, check_interval := interval, script_path := script,
    server_process := none, is_connected := false, last_ip := none,
    running := true }

/-! ### Process controller (`_start_server`, `_stop_server`) -/

/-- One recorded `subprocess.Popen` launch performed by `_start_server`
(network_monitor.py lines 159-164): the script that was launched and whether it
was placed in a new process group (`preexec_fn=os.setsid`). -/
structure LaunchCall where
  script : String
  newProcessGroup : Bool
deriving Repr, DecidableEq

/-- Environment for one `_start_server` call: the result of the initial
`_is_server_running()` check, whether `os.chmod` succeeds, whether
`subprocess.Popen` succeeds, and the result of the `_is_server_running()`
re-check after the two-second settle sleep. -/
structure StartEnv where
  running1 : Bool
  chmodOk : Bool
  popenOk : Bool
  running2 : Bool
deriving Repr, DecidableEq

/-- Shallow embedding of `NetworkMonitor._start_server` (network_monitor.py
lines 146-179).  Returns the reported boolean result together with the list of
successful `subprocess.Popen` launches.  If the initial `_is_server_running()`
check succeeds the function returns `True` at once; an exception from
`os.chmod` or `subprocess.Popen` is caught by the surrounding `try`/`except`
which returns `False`; otherwise the launch happens with
`preexec_fn=os.setsid`, the function sleeps, and returns the result of the
re-check. -/
def start_server (script : String) (env : StartEnv) : Bool × List LaunchCall :=
  if env.running1 then (true, [])
  else if !env.chmodOk then (false, [])
  else if !env.popenOk then (false, [])
  else
    let launch : LaunchCall := { script := script, newProcessGroup := true }
    if env.running2 then (true, [launch]) else (false, [launch])

/-! ### Address validity (`_is_valid_ip`, network_monitor.py lines 122-130)

`_is_valid_ip(ip)` calls `socket.inet_aton(ip)` and, when that parses, rejects
strings with the literal prefixes `'127.'` and `'169.254.'`.  `inet_aton` is
the classic BSD/glibc routine: the string is up to four `.`-separated numeric
parts, each in C syntax (`0x`/`0X` hex, leading-`0` octal, otherwise decimal);
with fewer than four parts the last part supplies the remaining low-order
bytes.  We model exactly this grammar on the characters of the string (the
legacy tolerance of trailing white space is not modelled; no claim quantifies
over such strings). -/

/-- Numeric value of a decimal digit character. -/
def digitVal (c : Char) : Nat := c.toNat - '0'.toNat

/-- Numeric value of a hexadecimal digit character. -/
def hexVal (c : Char) : Nat :=
  if c.isDigit then digitVal c
  else if 'a' ≤ c ∧ c ≤ 'f' then c.toNat - 'a'.toNat + 10
  else c.toNat - 'A'.toNat + 10

/-- Is `c` an octal digit? -/
def isOctDigit (c : Char) : Bool := '0' ≤ c && c ≤ '7'

/-- Is `c` a hexadecimal digit? -/
def isHexChar (c : Char) : Bool :=
  c.isDigit || ('a' ≤ c && c ≤ 'f') || ('A' ≤ c && c ≤ 'F')

/-- Accumulating parse of a digit string in base `base`, with digit test
`good`; fails on the first character that is not a digit of the base
(`inet_aton` rejects a part with a stray character, e.g. `'08'` as octal). -/
def parseBaseAux (base : Nat) (good : Char → Bool) (val : Char → Nat) :
    List Char → Nat → Option Nat
  | [], acc => some acc
  | c :: cs, acc =>
    if good c then parseBaseAux base good val cs (acc * base + val c) else none

/-- Parse one `inet_aton` part in C numeric syntax: `0x…`/`0X…` is hex (at
least one hex digit required), a remaining leading `0` is octal, anything else
is decimal; the empty string is not a number. -/
def parseCNum : List Char → Option Nat
  | [] => none
  | '0' :: x :: rest =>
    if x = 'x' ∨ x = 'X' then
      match rest with
      | [] => none
      | _ => parseBaseAux 16 isHexChar hexVal rest 0
    else parseBaseAux 8 isOctDigit digitVal (x :: rest) 0
  | ['0'] => some 0
  | cs => parseBaseAux 10 Char.isDigit digitVal cs 0

/-- Split a character list at every `'.'` (Python `str.split('.')` semantics:
`n` separators yield `n+1` groups, empty groups included). -/
def splitOnDot : List Char → List (List Char)
  | [] => [[]]
  | c :: cs =>
    if c = '.' then [] :: splitOnDot cs
    else
      match splitOnDot cs with
      | [] => [[c]]
      | g :: gs => (c :: g) :: gs

/-- Parse every `.`-separated group as a C number; fail if any group fails. -/
def parseParts : List (List Char) → Option (List Nat)
  | [] => some []
  | g :: gs =>
    match parseCNum g, parseParts gs with
    | some v, some vs => some (v :: vs)
    | _, _ => none

/-- The 32-bit value `socket.inet_aton` assigns to the string, or `none` when
it raises `OSError`: one part is the whole address, two parts are `a.b` with
`b` the low 24 bits, three are `a.b.c` with `c` the low 16 bits, four are the
usual dotted quad; every leading part must fit in a byte. -/
def inet_aton_val (s : String) : Option Nat :=
  match parseParts (splitOnDot s.toList) with
  | some [a] => if a < 2 ^ 32 then some a else none
  | some [a, b] =>
    if a ≤ 255 ∧ b < 2 ^ 24 then some (a * 2 ^ 24 + b) else none
  | some [a, b, c] =>
    if a ≤ 255 ∧ b ≤ 255 ∧ c < 2 ^ 16 then
      some (a * 2 ^ 24 + b * 2 ^ 16 + c)
    else none
  | some [a, b, c, d] =>
    if a ≤ 255 ∧ b ≤ 255 ∧ c ≤ 255 ∧ d ≤ 255 then
      some (a * 2 ^ 24 + b * 2 ^ 16 + c * 2 ^ 8 + d)
    else none
  | _ => none

/-- Python `str.startswith` on our strings. -/
def pyStartsWith (p s : String) : Bool := p.toList.isPrefixOf s.toList

/-- Shallow embedding of `NetworkMonitor._is_valid_ip` (network_monitor.py
lines 122-130): `socket.inet_aton` must parse the string (else the
`socket.error` handler returns `False`), and the string must not start with
`'127.'` or `'169.254.'`. -/
def is_valid_ip (ip : String) : Bool :=
  (inet_aton_val ip).isSome && !pyStartsWith "127." ip &&
    !pyStartsWith "169.254." ip

/-! ### Detection cascade (`get_interface_ip`, network_monitor.py lines 49-105) -/

/-- Does `p` occur as a contiguous sublist of `l`? -/
def listInfixOf (p : List Char) : List Char → Bool
  | [] => p.isPrefixOf []
  | c :: cs => p.isPrefixOf (c :: cs) || listInfixOf p cs

/-- Python substring containment (`needle in haystack`). -/
def strContains (needle s : String) : Bool := listInfixOf needle.toList s.toList

/-- Python `str.strip`/`str.split()` white space. -/
def isPySpace (c : Char) : Bool :=
  c = ' ' || c = '\t' || c = '\n' || c = '\r' || c = '\x0b' || c = '\x0c'

/-- Python `str.split()` with no argument: split on runs of white space,
dropping empty groups. -/
def pySplitWsAux : List Char → List Char → List (List Char)
  | [], acc => if acc = [] then [] else [acc.reverse]
  | c :: cs, acc =>
    if isPySpace c then
      if acc = [] then pySplitWsAux cs []
      else acc.reverse :: pySplitWsAux cs []
    else pySplitWsAux cs (c :: acc)

/-- Split a string on white space, Python `str.split()` style. -/
def pySplitWs (s : String) : List (List Char) := pySplitWsAux s.toList []

/-- Python `str.strip()`: drop leading and trailing white space. -/
def pyStrip (s : String) : String :=
  String.mk (((s.toList.dropWhile isPySpace).reverse.dropWhile isPySpace).reverse)

/-- Split a character list at every newline (Python `str.split('\n')`). -/
def splitOnNl : List Char → List (List Char)
  | [] => [[]]
  | c :: cs =>
    if c = '\n' then [] :: splitOnNl cs
    else
      match splitOnNl cs with
      | [] => [[c]]
      | g :: gs => (c :: g) :: gs

/-- Environment for one `get_interface_ip` call: the locally bound address the
outbound UDP probe reports (`none` when `socket.connect`/`getsockname`
raises), the stdout of the `ip addr show <iface>` run inside
`_verify_ip_on_interface` (`none` when that subprocess raises), the stdout of
the `ip addr show <iface>` run by method 2 (`none` on
`CalledProcessError`), and the `netifaces` IPv4 address records for the
interface (`none` when the module is missing, raises, the interface is not
listed, or it has no `AF_INET` entry; each record's `.get('addr')` may itself
be `None`). -/
structure DetectEnv where
  socketProbe : Option String
  verifyStdout : Option String
  ipAddrStdout : Option String
  netifacesAddrs : Option (List (Option String))
deriving Repr, DecidableEq

/-- Shallow embedding of `NetworkMonitor._verify_ip_on_interface`
(network_monitor.py lines 107-120): run `ip addr show <iface>` and test
`ip in result.stdout`; any exception yields `False`. -/
def verify_ip_on_interface (env : DetectEnv) (ip : String) : Bool :=
  match env.verifyStdout with
  | some out => strContains ip out
  | none => false

/-- Method 1 of the cascade (lines 54-65): the outbound-probe local address,
accepted only when `_verify_ip_on_interface` confirms it; on exception or
failed verification the method yields nothing (the code falls through, the
`with` block has no `return` on the failure path). -/
def detectMethod1 (env : DetectEnv) : Option String :=
  match env.socketProbe with
  | some ip => if verify_ip_on_interface env ip then some ip else none
  | none => none

/-- Scan the white-space-separated items of one line for the first
`'/'`-containing item not starting with `'inet'` whose prefix before the first
`'/'` passes `_is_valid_ip` (the inner `for item in ip_info:` loop, lines
79-83). -/
def firstValidItem : List (List Char) → Option String
  | [] => none
  | item :: items =>
    let itemS := String.mk item
    if strContains "/" itemS && !pyStartsWith "inet" itemS then
      let ip := String.mk (item.takeWhile (fun c => c ≠ '/'))
      if is_valid_ip ip then some ip else firstValidItem items
    else firstValidItem items

/-- Process one line of `ip addr show` output (lines 76-83): lines containing
both `'inet '` and `'scope global'` are stripped, split on white space, and
scanned for a valid address item. -/
def parseIpAddrLine (line : List Char) : Option String :=
  let lineS := String.mk line
  if strContains "inet " lineS && strContains "scope global" lineS then
    firstValidItem (pySplitWs (pyStrip lineS))
  else none

/-- First `some` produced by `f` along a list. -/
def firstSome {α β : Type} (f : α → Option β) : List α → Option β
  | [] => none
  | a :: as' =>
    match f a with
    | some b => some b
    | none => firstSome f as'

/-- Method 2 of the cascade (lines 67-86): parse the stdout of
`ip addr show <iface>`, returning the first valid address found in any
qualifying line; a `CalledProcessError` yields nothing. -/
def detectMethod2 (env : DetectEnv) : Option String :=
  match env.ipAddrStdout with
  | some out => firstSome parseIpAddrLine (splitOnNl out.toList)
  | none => none

/-- Method 3 of the cascade (lines 88-103): the first `netifaces` `AF_INET`
record whose `addr` field is present, truthy (non-empty) and passes
`_is_valid_ip`; any import error or exception yields nothing. -/
def detectMethod3 (env : DetectEnv) : Option String :=
  match env.netifacesAddrs with
  | some addrs =>
    firstSome
      (fun a =>
        match a with
        | some ip => if ip ≠ "" && is_valid_ip ip then some ip else none
        | none => none)
      addrs
  | none => none

/-- Shallow embedding of `NetworkMonitor.get_interface_ip` (network_monitor.py
lines 49-105): methods 1, 2 and 3 in order, each `return` ending the cascade,
with `None` returned at line 105 when every method fell through. -/
def get_interface_ip (env : DetectEnv) : Option String :=
  match detectMethod1 env with
  | some ip => some ip
  | none =>
    match detectMethod2 env with
    | some ip => some ip
    | none => detectMethod3 env

/-- Environment for one `_stop_server` call: whether the `pkill` invocation
raises (e.g. the binary is missing — a nonzero exit status does *not* raise
because `check=True` is not passed), whether `os.killpg`/`getpgid` on the held
handle raises, and whether the five-second `wait` times out. -/
structure StopEnv where
  pkillRaises : Bool
  killpgRaises : Bool
  waitTimesOut : Bool
deriving Repr, DecidableEq

/-- Shallow embedding of `NetworkMonitor._stop_server` (network_monitor.py
lines 181-208).  Returns the updated state (the function itself returns
`None`; every exception is caught).  If `pkill` raises, control jumps to the
outer `except` before the handle-clearing block runs; otherwise, when a handle
is held, `killpg`/`wait` run under an inner `try` whose `finally` always clears
the handle; when no handle is held the `if self.server_process:` block is
skipped. -/
def stop_server (s : NMState) (env : StopEnv) : NMState :=
  if env.pkillRaises then s
  else
    match s.server_process with
    | none => s
    | some _ => { s with server_process := none }

/-! ## Stats broadcaster (`stats_broadcaster.py`) -/

/-! ### Simulated sensor fallbacks (lines 54-63, 113-124, 140-154)

When GPIO is unavailable (distance, pH) or the thermal sysfs file is
unreadable (ambient temperature), the sensor functions return
`round(base + random.uniform(-w, w), 2)`.  We model the float computation over
rationals: `random.uniform(a, b)` yields some `v` with `a ≤ v ≤ b`, and
`round(x, 2)` rounds to the nearest multiple of `1/100`. -/

/-- Python `round(x, 2)`: the nearest multiple of `1/100` (tie-breaking is
irrelevant to the range claims; we use Mathlib's `round`, i.e. half-up). -/
def pyRound2 (x : ℚ) : ℚ := (round (100 * x) : ℤ) / 100

/-- Simulated branch of `get_ultrasonic_distance` (stats_broadcaster.py lines
59-63), taken when `GPIO_AVAILABLE` is false: `round(25.0 + v, 2)` where `v`
is `random.uniform(-2.0, 2.0)`. -/
def ultrasonic_distance_sim (v : ℚ) : ℚ := pyRound2 (25 + v)

/-- Simulated branch of `get_ph_level` (lines 119-124), taken when
`GPIO_AVAILABLE` is false: `round(7.0 + v, 2)` where `v` is
`random.uniform(-0.3, 0.3)`. -/
def ph_level_sim (v : ℚ) : ℚ := pyRound2 (7 + v)

/-- Simulated branch of `get_ambient_temp` (lines 150-154), taken when reading
`/sys/class/thermal/thermal_zone0/temp` raises: `round(25.0 + v, 2)` where `v`
is `random.uniform(-3.0, 3.0)`. -/
def ambient_temp_sim (v : ℚ) : ℚ := pyRound2 (25 + v)

/-! ### Stats collector (`get_stats`, lines 176-381) -/

/-- A Python/JSON-style value, enough to express the snapshot dictionary. -/
inductive PyVal where
  | pyNone
  | pyBool (b : Bool)
  | pyInt (n : Int)
  | pyRat (q : ℚ)
  | pyStr (s : String)
  | pyList (l : List PyVal)
  | pyDict (d : List (String × PyVal))

/-- A caught Python exception, reduced to its message (`str(e)`). -/
structure PyExc where
  msg : String

/-- Environment for one `get_stats` call: the timestamp, and for each `psutil`
query made directly inside the big `try` block either a result value or a
raised exception.  Calls whose failures the source handles locally are
modelled with their handled result: `getloadavg`, `sensors_battery` and
`sensors_temperatures` sit in inner `try`/`except AttributeError` blocks and
contribute an optional value; per-partition `disk_usage` and per-process
accesses sit in loops whose handlers `continue`, so they contribute the list
of successfully read entries; the sensor helpers (`get_temperature`,
`get_ultrasonic_distance`, `get_turbidity_status`, `get_ambient_temp`,
`get_ph_level`) catch their own exceptions and contribute plain values. -/
structure StatsEnv where
  timestamp : String
  cpuPercent : Except PyExc ℚ
  cpuCount : Except PyExc Int
  cpuCountLogical : Except PyExc Int
  cpuFreq : Except PyExc (Option (ℚ × ℚ × ℚ))
  cpuPerCore : Except PyExc (List ℚ)
  virtualMemory : Except PyExc (List (String × PyVal))
  swapMemory : Except PyExc (List (String × PyVal))
  diskRoot : Except PyExc (List (String × PyVal))
  diskIo : Except PyExc (List (String × PyVal))
  diskPartitions : Except PyExc (List PyVal)
  netIo : Except PyExc (List (String × PyVal))
  netIfAddrs : Except PyExc (List (String × PyVal))
  processes : Except PyExc (List PyVal)
  bootTime : Except PyExc String
  uptimeSeconds : ℚ
  uptimeHuman : String
  loadAvg : Option (List ℚ)
  battery : Option (List (String × PyVal))
  sensorsTemps : List (String × PyVal)
  piTemperature : Option ℚ
  ultrasonic : PyVal
  turbidity : PyVal
  ambientTemp : ℚ
  phLevel : ℚ
  gpioAvailable : Bool
  connectedClients : Nat

/-- The body of `get_stats`'s `try` block (lines 181-374): every unguarded
`psutil` call is sequenced, and the snapshot dictionary is assembled with the
top-level keys of lines 296-372.  The first raised exception aborts the
block. -/
def statsTryBlock (env : StatsEnv) : Except PyExc (List (String × PyVal)) := do
  let cpuPercent ← env.cpuPercent
  let cpuCount ← env.cpuCount
  let cpuCountLogical ← env.cpuCountLogical
  let cpuFreq ← env.cpuFreq
  let cpuPerCore ← env.cpuPerCore
  let memory ← env.virtualMemory
  let swap ← env.swapMemory
  let diskRoot ← env.diskRoot
  let diskIo ← env.diskIo
  let diskPartitions ← env.diskPartitions
  let netIo ← env.netIo
  let netIfAddrs ← env.netIfAddrs
  let processes ← env.processes
  let bootTime ← env.bootTime
  pure
    [("timestamp", PyVal.pyStr env.timestamp),
     ("system", PyVal.pyDict
       [("boot_time", PyVal.pyStr bootTime),
        ("uptime_seconds", PyVal.pyRat env.uptimeSeconds),
        ("uptime_human", PyVal.pyStr env.uptimeHuman),
        ("load_average",
          match env.loadAvg with
          | some l => PyVal.pyList (l.map PyVal.pyRat)
          | none => PyVal.pyNone),
        ("connected_clients", PyVal.pyInt env.connectedClients)]),
     ("cpu", PyVal.pyDict
       [("usage_percent", PyVal.pyRat (pyRound2 cpuPercent)),
        ("count_physical", PyVal.pyInt cpuCount),
        ("count_logical", PyVal.pyInt cpuCountLogical),
        ("frequency_mhz", PyVal.pyDict
          (match cpuFreq with
           | some (cur, lo, hi) =>
             [("current", PyVal.pyRat (pyRound2 cur)),
              ("min", PyVal.pyRat (pyRound2 lo)),
              ("max", PyVal.pyRat (pyRound2 hi))]
           | none =>
             [("current", PyVal.pyNone), ("min", PyVal.pyNone),
              ("max", PyVal.pyNone)])),
        ("per_core_usage", PyVal.pyList (cpuPerCore.map PyVal.pyRat))]),
     ("memory", PyVal.pyDict memory),
     ("swap", PyVal.pyDict swap),
     ("disk", PyVal.pyDict
       (diskRoot ++
        [("partitions", PyVal.pyList diskPartitions),
         ("io_counters", PyVal.pyDict diskIo)])),
     ("network", PyVal.pyDict
       [("io_counters", PyVal.pyDict netIo),
        ("interfaces", PyVal.pyDict netIfAddrs)]),
     ("processes", PyVal.pyDict
       [("total_count", PyVal.pyInt processes.length),
        ("top_cpu_usage", PyVal.pyList (processes.take 10))]),
     ("temperature", PyVal.pyDict
       [("pi_cpu_celsius",
          match env.piTemperature with
          | some t => PyVal.pyRat (pyRound2 t)
          | none => PyVal.pyNone),
        ("sensors", PyVal.pyDict env.sensorsTemps)]),
     ("custom_sensors", PyVal.pyDict
       [("ambient_temp_celsius", PyVal.pyRat env.ambientTemp),
        ("ultrasonic_distance_cm", env.ultrasonic),
        ("water_turbidity", env.turbidity),
        ("ph_level", PyVal.pyRat env.phLevel),
        ("gpio_available", PyVal.pyBool env.gpioAvailable)]),
     ("battery",
       match env.battery with
       | some b => PyVal.pyDict b
       | none => PyVal.pyNone)]

/-- Shallow embedding of `get_stats` (stats_broadcaster.py lines 176-381): the
`try` body, with the `except Exception` handler (lines 376-381) replacing the
result by `{'timestamp': ..., 'error': str(e)}`.  Total by construction: no
exception escapes. -/
def get_stats (env : StatsEnv) : List (String × PyVal) :=
  match statsTryBlock env with
  | Except.ok d => d
  | Except.error e =>
    [("timestamp", PyVal.pyStr env.timestamp), ("error", PyVal.pyStr e.msg)]

/-! ### Subscriber registry and broadcast tick (lines 34, 383-442)

`connected_clients` is a Python `set`; we model it as a duplicate-free list
(an iteration order of the set).  Clients are identified by naturals. -/

/-- `register_client` (lines 383-387): `connected_clients.add(websocket)` —
a no-op when already present. -/
def register_client (r : List Nat) (c : Nat) : List Nat :=
  if c ∈ r then r else r ++ [c]

/-- `unregister_client` (lines 389-393): `connected_clients.discard(websocket)`
— removes the client when present, otherwise a no-op. -/
def unregister_client (r : List Nat) (c : Nat) : List Nat := r.erase c

/-- The fan-out loop of one broadcast tick (lines 420-428): iterate the
registry in order, recording the clients whose send succeeded (`delivered`)
and accumulating failed ones into a `disconnected_clients` collection. -/
def tickFanOut (fails : Nat → Bool) :
    List Nat → List Nat × List Nat
  | [] => ([], [])
  | c :: cs =>
    let (delivered, disconnected) := tickFanOut fails cs
    if fails c then (delivered, c :: disconnected)
    else (c :: delivered, disconnected)

/-- The cleanup sweep of one broadcast tick (lines 430-432): discard each
member of `disconnected_clients` from the registry via `unregister_client`. -/
def tickSweep (r : List Nat) (disconnected : List Nat) : List Nat :=
  disconnected.foldl unregister_client r

/-- One full broadcast tick over a non-empty registry (lines 414-432): fan out
the serialized snapshot, then sweep the failures.  Returns the delivered list
and the registry afterwards.  (On an empty registry the tick body is skipped
entirely, line 414.) -/
def broadcastTick (fails : Nat → Bool) (r : List Nat) : List Nat × List Nat :=
  if r = [] then ([], r)
  else
    let (delivered, disconnected) := tickFanOut fails r
    (delivered, tickSweep r disconnected)

/-- The broadcast loop, run for a given list of tick environments (the
`while True:` of lines 412-442 never exits by itself; its `try`/`except`
catches any tick-level error and continues, so consecutive ticks always
happen).  Returns the registry after the ticks. -/
def broadcastLoopRun : List (Nat → Bool) → List Nat → List Nat
  | [], r => r
  | fails :: rest, r => broadcastLoopRun rest (broadcastTick fails r).2

/-! ### Connection handler (`handle_client`, lines 395-408) -/

/-- Registry events: the only two mutations of `connected_clients`. -/
inductive RegEv where
  | reg (c : Nat)
  | unreg (c : Nat)
deriving Repr, DecidableEq

/-- Apply one registry event. -/
def applyEv (r : List Nat) : RegEv → List Nat
  | RegEv.reg c => register_client r c
  | RegEv.unreg c => unregister_client r c

/-- Run a list of registry events. -/
def runEvs (r : List Nat) (evs : List RegEv) : List Nat := evs.foldl applyEv r

/-- Count the events of a trace that actually remove `c` from the registry:
an `unreg c` fired while `c` is a member (a `discard` of an absent element
does nothing). -/
def effRemovals (c : Nat) : List Nat → List RegEv → Nat
  | _, [] => 0
  | r, e :: evs =>
    (if e = RegEv.unreg c ∧ c ∈ r then 1 else 0) +
      effRemovals c (applyEv r e) evs

/-- The ways `handle_client`'s body can end: the `async for` loop finishing
normally (clean client close), a `websockets.exceptions.ConnectionClosed`
(handler `pass`, line 403-404), or any other exception (logged,
lines 405-406). -/
inductive ExitPath where
  | clean
  | connClosed
  | otherError
deriving Repr, DecidableEq

/-- The registry events `handle_client` itself performs over one connection
(lines 395-408): `register_client` on entry, then — whatever the exit path,
because the `finally` block always runs — exactly one `unregister_client`. -/
def handle_client_events (p : ExitPath) (c : Nat) : List RegEv :=
  match p with
  | ExitPath.clean => [RegEv.reg c, RegEv.unreg c]
  | ExitPath.connClosed => [RegEv.reg c, RegEv.unreg c]
  | ExitPath.otherError => [RegEv.reg c, RegEv.unreg c]

/-- Does an event mention client `c`? -/
def touches (c : Nat) : RegEv → Bool
  | RegEv.reg c' => c' = c
  | RegEv.unreg c' => c' = c

/-! ### Canonical dotted-quad rendering (for the address-filter claim) -/

/-- Canonical decimal digits of a natural number. -/
def dig (n : Nat) : List Char := Nat.toDigits 10 n

/-- The canonical dotted-quad string `a.b.c.d` with decimal parts. -/
def ipStr (a b c d : Nat) : String :=
  String.mk (dig a ++ '.' :: (dig b ++ '.' :: (dig c ++ '.' :: dig d)))

/-! ## Theorems -/

/-- C1: supervisor state-machine trace.  Starting `Disconnected`
(`initialNMState`), a poll with no address leaves the state unchanged and
performs no controller action; a poll with `(address = X, internetOk = true)`
(server not yet running) moves to `Connected`, records `X`, and performs
exactly the single action `start`; a further poll with the same `(X, true)`
while the broadcaster runs performs no action and keeps the state; a final
poll with no address returns to `Disconnected` (clearing the address) with
exactly the single action `stop`. -/
theorem supervisor_state_machine_trace (X : String) :
    check_connection (initialNMState "wlan0" 5 "./start_server.sh")
        { address := none, internetOk := false, serverRunning := false,
          startResult := true } =
      (initialNMState "wlan0" 5 "./start_server.sh", []) ∧
    check_connection (initialNMState "wlan0" 5 "./start_server.sh")
        { address := some X, internetOk := true, serverRunning := false,
          startResult := true } =
      ({ initialNMState "wlan0" 5 "./start_server.sh" with
          is_connected := true, last_ip := some X }, [CtlAction.start]) ∧
    check_connection
        { initialNMState "wlan0" 5 "./start_server.sh" with
            is_connected := true, last_ip := some X }
        { address := some X, internetOk := true, serverRunning := true,
          startResult := true } =
      ({ initialNMState "wlan0" 5 "./start_server.sh" with
          is_connected := true, last_ip := some X }, []) ∧
    check_connection
        { initialNMState "wlan0" 5 "./start_server.sh" with
            is_connected := true, last_ip := some X }
        { address := none, internetOk := false, serverRunning := true,
          startResult := true } =
      (initialNMState "wlan0" 5 "./start_server.sh", [CtlAction.stop]) := by
  refine ⟨?_, ?_, ?_, ?_⟩ <;> simp [check_connection, initialNMState]

/-- Closed instance of the C1 trace at the concrete address
`192.168.1.50`. -/
theorem supervisor_state_machine_trace_witness :
    check_connection (initialNMState "wlan0" 5 "./start_server.sh")
        { address := some "192.168.1.50", internetOk := true,
          serverRunning := false, startResult := true } =
      ({ initialNMState "wlan0" 5 "./start_server.sh" with
          is_connected := true, last_ip := some "192.168.1.50" },
        [CtlAction.start]) :=
  (supervisor_state_machine_trace "192.168.1.50").2.1

/-- C10: whenever an address `X` is detected and the internet probe succeeds,
`check_connection` leaves the monitor with `is_connected = true` and
`last_ip = some X` — and the poll's outcome does not depend on the value
`_start_server` reports, so a failed launch neither reverts the `Connected`
state nor the recorded address. -/
theorem connected_state_recorded_regardless_of_start (s : NMState)
    (env : PollEnv) (X : String) (haddr : env.address = some X)
    (hnet : env.internetOk = true) :
    (check_connection s env).1.is_connected = true ∧
    (check_connection s env).1.last_ip = some X ∧
    ∀ r : Bool, check_connection s { env with startResult := r } =
      check_connection s env := by
  obtain ⟨addr, net, sr, st⟩ := env
  simp only at haddr hnet
  subst haddr hnet
  refine ⟨?_, ?_, fun r => rfl⟩ <;>
  · simp only [check_connection]
    split_ifs with h1 h2 h3 <;> simp_all

/-- Closed instance of C10: with a start attempt that fails
(`startResult = false`) from the fresh state, the poll still records the
connection. -/
theorem connected_state_recorded_regardless_of_start_witness :
    (check_connection (initialNMState "wlan0" 5 "./start_server.sh")
        { address := some "10.1.2.3", internetOk := true,
          serverRunning := false, startResult := false }).1.is_connected =
      true ∧
    (check_connection (initialNMState "wlan0" 5 "./start_server.sh")
        { address := some "10.1.2.3", internetOk := true,
          serverRunning := false, startResult := false }).1.last_ip =
      some "10.1.2.3" := by
  have h := connected_state_recorded_regardless_of_start
    (initialNMState "wlan0" 5 "./start_server.sh")
    { address := some "10.1.2.3", internetOk := true, serverRunning := false,
      startResult := false } "10.1.2.3" rfl rfl
  exact ⟨h.1, h.2.1⟩

/-- C6: start idempotence.  When the initial `_is_server_running()` check
succeeds, `_start_server` performs no `Popen` launch and reports success;
otherwise (with `chmod` and `Popen` succeeding) it performs exactly one
launch, in a new process group, and reports success exactly when the
re-check after the settle period succeeds. -/
theorem start_server_idempotent (script : String) (env : StartEnv) :
    (env.running1 = true → start_server script env = (true, [])) ∧
    (env.running1 = false → env.chmodOk = true → env.popenOk = true →
      start_server script env =
        (env.running2, [{ script := script, newProcessGroup := true }])) := by
  constructor
  · intro h; simp [start_server, h]
  · intro h1 h2 h3
    cases hr : env.running2 <;> simp [start_server, h1, h2, h3, hr]

/-- Closed instance of C6: a call with the server already running launches
nothing and reports success. -/
theorem start_server_idempotent_witness :
    start_server "./start_server.sh"
        { running1 := true, chmodOk := true, popenOk := true,
          running2 := true } =
      (true, []) :=
  (start_server_idempotent "./start_server.sh"
    { running1 := true, chmodOk := true, popenOk := true,
      running2 := true }).1 rfl

/-- C7: stop safety on empty state.  When no process handle is held,
`_stop_server` completes (every exception is caught) and leaves the monitor
state exactly unchanged — in particular the handle remains empty. -/
theorem stop_server_noop_when_idle (s : NMState) (env : StopEnv)
    (h : s.server_process = none) : stop_server s env = s := by
  simp [stop_server, h]

/-- Closed instance of C7 on the fresh monitor state. -/
theorem stop_server_noop_when_idle_witness :
    stop_server (initialNMState "wlan0" 5 "./start_server.sh")
        { pkillRaises := false, killpgRaises := false, waitTimesOut := false } =
      initialNMState "wlan0" 5 "./start_server.sh" :=
  stop_server_noop_when_idle _ _ rfl

/-- C3: detection cascade order.  `get_interface_ip` returns the result of
the outbound-probe method whenever it yields an address; only when it yields
nothing does the `ip addr show` parse decide, and only when both yield
nothing does the `netifaces` lookup decide; the whole cascade returns `None`
exactly when all three strategies fail. -/
theorem detection_cascade_order (env : DetectEnv) :
    (∀ ip, detectMethod1 env = some ip → get_interface_ip env = some ip) ∧
    (detectMethod1 env = none → ∀ ip, detectMethod2 env = some ip →
      get_interface_ip env = some ip) ∧
    (detectMethod1 env = none → detectMethod2 env = none →
      get_interface_ip env = detectMethod3 env) ∧
    (get_interface_ip env = none ↔
      detectMethod1 env = none ∧ detectMethod2 env = none ∧
        detectMethod3 env = none) := by
  unfold get_interface_ip
  cases h1 : detectMethod1 env <;> cases h2 : detectMethod2 env <;>
    simp [h1, h2]

/-- Closed instance of C3: with the outbound probe failing, the `ip addr
show` parse supplies the address. -/
theorem detection_cascade_order_witness :
    get_interface_ip
        { socketProbe := none, verifyStdout := none,
          ipAddrStdout :=
            some "3: wlan0: <UP>\n    inet 10.0.0.7/24 scope global wlan0",
          netifacesAddrs := none } =
      some "10.0.0.7" :=
  (detection_cascade_order
    { socketProbe := none, verifyStdout := none,
      ipAddrStdout :=
        some "3: wlan0: <UP>\n    inet 10.0.0.7/24 scope global wlan0",
      netifacesAddrs := none }).2.1 rfl "10.0.0.7" (by decide)

/-! ### Helper lemmas for the address-filter claim -/

theorem splitOnDot_no_dot (xs : List Char) (h : '.' ∉ xs) :
    splitOnDot xs = [xs] := by
  induction xs with
  | nil => rfl
  | cons c cs ih =>
    have hc : ¬c = '.' := fun e => h (by simp [e])
    have hcs : '.' ∉ cs := fun m => h (List.mem_cons_of_mem _ m)
    simp [splitOnDot, hc, ih hcs]

theorem splitOnDot_append (xs rest : List Char) (h : '.' ∉ xs) :
    splitOnDot (xs ++ '.' :: rest) = xs :: splitOnDot rest := by
  induction xs with
  | nil => simp [splitOnDot]
  | cons c cs ih =>
    have hc : ¬c = '.' := fun e => h (by simp [e])
    have hcs : '.' ∉ cs := fun m => h (List.mem_cons_of_mem _ m)
    simp [splitOnDot, hc, ih hcs]

/-- A pattern of the form `p·.·q` is a prefix of `xs·.·ys` (with `p` and `xs`
dot-free) exactly when `p` matches the whole first segment and `q` is a
prefix of the remainder. -/
theorem prefix_dotSeg (p q xs ys : List Char) (hp : '.' ∉ p)
    (hxs : '.' ∉ xs) :
    (p ++ '.' :: q) <+: (xs ++ '.' :: ys) ↔ p = xs ∧ q <+: ys := by
  induction p generalizing xs with
  | nil =>
    cases xs with
    | nil => simp [List.cons_prefix_cons]
    | cons x xs' =>
      have hx : ¬('.' : Char) = x := fun e => hxs (by simp [← e])
      simp [List.cons_prefix_cons, hx]
  | cons a p' ih =>
    cases xs with
    | nil =>
      have ha : ¬a = '.' := fun e => hp (by simp [e])
      simp [List.cons_prefix_cons, ha]
    | cons x xs' =>
      have hp' : '.' ∉ p' := fun m => hp (List.mem_cons_of_mem _ m)
      have hxs' : '.' ∉ xs' := fun m => hxs (List.mem_cons_of_mem _ m)
      simp [List.cons_prefix_cons, ih xs' hp' hxs', and_assoc]

set_option maxRecDepth 4000 in
theorem parseCNum_dig : ∀ n : Nat, n < 256 → parseCNum (dig n) = some n := by
  decide

set_option maxRecDepth 4000 in
theorem dot_not_in_dig : ∀ n : Nat, n < 256 → '.' ∉ dig n := by decide

set_option maxRecDepth 4000 in
theorem dig_eq_127 : ∀ n : Nat, n < 256 →
    (dig n = ['1', '2', '7'] ↔ n = 127) := by decide

set_option maxRecDepth 4000 in
theorem dig_eq_169 : ∀ n : Nat, n < 256 →
    (dig n = ['1', '6', '9'] ↔ n = 169) := by decide

set_option maxRecDepth 4000 in
theorem dig_eq_254 : ∀ n : Nat, n < 256 →
    (dig n = ['2', '5', '4'] ↔ n = 254) := by decide

/-- The dotted-quad rendering parses back to its four parts. -/
theorem inet_aton_val_ipStr (a b c d : Nat) (ha : a < 256) (hb : b < 256)
    (hc : c < 256) (hd : d < 256) :
    inet_aton_val (ipStr a b c d) =
      some (a * 2 ^ 24 + b * 2 ^ 16 + c * 2 ^ 8 + d) := by
  have hsplit : splitOnDot (ipStr a b c d).toList =
      [dig a, dig b, dig c, dig d] := by
    show splitOnDot
        (dig a ++ '.' :: (dig b ++ '.' :: (dig c ++ '.' :: dig d))) = _
    rw [splitOnDot_append _ _ (dot_not_in_dig a ha),
      splitOnDot_append _ _ (dot_not_in_dig b hb),
      splitOnDot_append _ _ (dot_not_in_dig c hc),
      splitOnDot_no_dot _ (dot_not_in_dig d hd)]
  unfold inet_aton_val
  rw [hsplit]
  simp [parseParts, parseCNum_dig a ha, parseCNum_dig b hb,
    parseCNum_dig c hc, parseCNum_dig d hd, Nat.lt_succ_iff.mp ha,
    Nat.lt_succ_iff.mp hb, Nat.lt_succ_iff.mp hc, Nat.lt_succ_iff.mp hd]

/-- The `'127.'` prefix test on a canonical dotted quad decides `a = 127`. -/
theorem pyStartsWith_127_ipStr (a b c d : Nat) (ha : a < 256) :
    pyStartsWith "127." (ipStr a b c d) = decide (a = 127) := by
  have hiff : pyStartsWith "127." (ipStr a b c d) = true ↔ a = 127 := by
    unfold pyStartsWith
    rw [List.isPrefixOf_iff_prefix]
    show (['1', '2', '7'] ++ '.' :: []) <+:
        (dig a ++ '.' :: (dig b ++ '.' :: (dig c ++ '.' :: dig d))) ↔ _
    rw [prefix_dotSeg _ _ _ _ (by decide) (dot_not_in_dig a ha)]
    constructor
    · rintro ⟨h, -⟩; exact (dig_eq_127 a ha).mp h.symm
    · intro h; exact ⟨((dig_eq_127 a ha).mpr h).symm, List.nil_prefix⟩
  by_cases hA : a = 127
  · rw [decide_eq_true hA]; exact hiff.mpr hA
  · rw [decide_eq_false hA]
    exact Bool.eq_false_iff.mpr fun hT => hA (hiff.mp hT)

/-- The `'169.254.'` prefix test on a canonical dotted quad decides
`a = 169 ∧ b = 254`. -/
theorem pyStartsWith_169_254_ipStr (a b c d : Nat) (ha : a < 256)
    (hb : b < 256) :
    pyStartsWith "169.254." (ipStr a b c d) = decide (a = 169 ∧ b = 254) := by
  have hiff : pyStartsWith "169.254." (ipStr a b c d) = true ↔
      a = 169 ∧ b = 254 := by
    unfold pyStartsWith
    rw [List.isPrefixOf_iff_prefix]
    show (['1', '6', '9'] ++ '.' :: (['2', '5', '4'] ++ '.' :: [])) <+:
        (dig a ++ '.' :: (dig b ++ '.' :: (dig c ++ '.' :: dig d))) ↔ _
    rw [prefix_dotSeg _ _ _ _ (by decide) (dot_not_in_dig a ha),
      prefix_dotSeg _ _ _ _ (by decide) (dot_not_in_dig b hb)]
    constructor
    · rintro ⟨h1, h2, -⟩
      exact ⟨(dig_eq_169 a ha).mp h1.symm, (dig_eq_254 b hb).mp h2.symm⟩
    · rintro ⟨h1, h2⟩
      exact ⟨((dig_eq_169 a ha).mpr h1).symm,
        ((dig_eq_254 b hb).mpr h2).symm, List.nil_prefix⟩
  by_cases hA : a = 169 ∧ b = 254
  · rw [decide_eq_true hA]; exact hiff.mpr hA
  · rw [decide_eq_false hA]
    exact Bool.eq_false_iff.mpr fun hT => hA (hiff.mp hT)

/-- C8 counterexample: `_is_valid_ip` accepts the string `'2130706433'`,
which `socket.inet_aton` parses (single-number legacy form) to the value
`2130706433 = 127·2²⁴ + 1`, an address in the loopback range 127.0.0.0/8 —
the literal prefix test `startswith('127.')` does not fire on it.  So the
claim "returns False for any address in the loopback range" is false as
stated. -/
theorem address_filter_loopback_counterexample :
    inet_aton_val "2130706433" = some 2130706433 ∧
    2130706433 / 2 ^ 24 = 127 ∧
    is_valid_ip "2130706433" = true := by
  refine ⟨by decide, by norm_num, by decide⟩

/-- C8 (amended): on candidate strings in canonical dotted-quad decimal form
`a.b.c.d` (each part ≤ 255, no leading zeros, no hex/octal/single-number
legacy forms), `_is_valid_ip` returns `False` exactly for the loopback range
127.0.0.0/8 and the link-local range 169.254.0.0/16; it returns `False` for
any string `inet_aton` cannot parse; in particular it rejects `'127.0.0.1'`
and `'169.254.1.1'` and accepts `'192.168.1.100'` and `'10.0.0.1'`. -/
theorem address_filter_amended :
    (∀ a b c d : Nat, a ≤ 255 → b ≤ 255 → c ≤ 255 → d ≤ 255 →
      is_valid_ip (ipStr a b c d) =
        (!(a == 127) && !(a == 169 && b == 254))) ∧
    is_valid_ip "127.0.0.1" = false ∧
    is_valid_ip "169.254.1.1" = false ∧
    is_valid_ip "192.168.1.100" = true ∧
    is_valid_ip "10.0.0.1" = true ∧
    (∀ s : String, inet_aton_val s = none → is_valid_ip s = false) := by
  refine ⟨?_, by decide, by decide, by decide, by decide, ?_⟩
  · intro a b c d ha hb hc hd
    have ha' : a < 256 := Nat.lt_succ_of_le ha
    have hb' : b < 256 := Nat.lt_succ_of_le hb
    have hc' : c < 256 := Nat.lt_succ_of_le hc
    have hd' : d < 256 := Nat.lt_succ_of_le hd
    unfold is_valid_ip
    rw [inet_aton_val_ipStr a b c d ha' hb' hc' hd',
      pyStartsWith_127_ipStr a b c d ha',
      pyStartsWith_169_254_ipStr a b c d ha' hb']
    by_cases h1 : a = 127 <;> by_cases h2 : a = 169 <;>
      by_cases h3 : b = 254 <;> simp [h1, h2, h3]
  · intro s h
    simp [is_valid_ip, h]

/-- Closed instance of the amended C8 on concrete quads. -/
theorem address_filter_amended_witness :
    is_valid_ip (ipStr 192 168 1 100) = true ∧
    is_valid_ip (ipStr 127 0 0 1) = false := by
  have h1 := address_filter_amended.1 192 168 1 100 (by norm_num)
    (by norm_num) (by norm_num) (by norm_num)
  have h2 := address_filter_amended.1 127 0 0 1 (by norm_num) (by norm_num)
    (by norm_num) (by norm_num)
  rw [h1, h2]
  exact ⟨by decide, by decide⟩

/-! ### Helper lemmas for the broadcast tick -/

/-- The fan-out loop delivers to exactly the non-failing clients and collects
exactly the failing ones, in registry order. -/
theorem tickFanOut_eq (fails : Nat → Bool) (r : List Nat) :
    tickFanOut fails r = (r.filter (fun c => !fails c), r.filter fails) := by
  induction r with
  | nil => rfl
  | cons c cs ih =>
    by_cases h : fails c <;> simp [tickFanOut, ih, List.filter_cons, h]

/-- Discarding the failing clients from a duplicate-free registry leaves
exactly the non-failing ones. -/
theorem tickSweep_filter (fails : Nat → Bool) (r : List Nat)
    (hnd : r.Nodup) :
    tickSweep r (r.filter fails) = r.filter (fun c => !fails c) := by
  show (r.filter fails).foldl unregister_client r = _
  have hfold : (r.filter fails).foldl unregister_client r =
      r.diff (r.filter fails) := by
    rw [List.diff_eq_foldl]
    rfl
  rw [hfold, List.Nodup.diff_eq_filter hnd]
  refine List.filter_congr fun x hx => ?_
  by_cases h : fails x <;> simp [List.mem_filter, hx, h]

/-- C2: per-subscriber failure isolation in the broadcast tick.  For any
duplicate-free registry and any pattern of send failures, one tick delivers
the snapshot to every non-failing subscriber (even those iterated after a
failing one), removes from the registry exactly the failing subscribers, and
the loop goes on to run the following ticks on the swept registry rather than
terminating. -/
theorem broadcast_tick_isolation (fails : Nat → Bool) (r : List Nat)
    (hnd : r.Nodup) :
    (broadcastTick fails r).1 = r.filter (fun c => !fails c) ∧
    (broadcastTick fails r).2 = r.filter (fun c => !fails c) ∧
    ∀ rest : List (Nat → Bool),
      broadcastLoopRun (fails :: rest) r =
        broadcastLoopRun rest (r.filter (fun c => !fails c)) := by
  have htick : broadcastTick fails r =
      (r.filter (fun c => !fails c), r.filter (fun c => !fails c)) := by
    unfold broadcastTick
    by_cases hr : r = []
    · subst hr; rfl
    · rw [if_neg hr, tickFanOut_eq]
      exact congrArg _ (tickSweep_filter fails r hnd)
  refine ⟨by rw [htick], by rw [htick], fun rest => ?_⟩
  show broadcastLoopRun rest (broadcastTick fails r).2 = _
  rw [htick]

/-- Closed instance of C2: among subscribers `[1, 2, 3]` with subscriber `2`
failing, subscribers `1` and `3` are both delivered to and only `2` is
removed. -/
theorem broadcast_tick_isolation_witness :
    (broadcastTick (fun c => c == 2) [1, 2, 3]).1 = [1, 3] ∧
    (broadcastTick (fun c => c == 2) [1, 2, 3]).2 = [1, 3] := by
  have h := broadcast_tick_isolation (fun c => c == 2) [1, 2, 3] (by decide)
  exact ⟨by rw [h.1]; decide, by rw [h.2.1]; decide⟩

/-! ### Helper lemmas for connection-handler unregistration -/

/-- Registry events preserve duplicate-freeness (`add` inserts only absent
elements; `discard` erases). -/
theorem applyEv_nodup (r : List Nat) (e : RegEv) (h : r.Nodup) :
    (applyEv r e).Nodup := by
  cases e with
  | reg c =>
    show (register_client r c).Nodup
    unfold register_client
    by_cases hc : c ∈ r
    · rw [if_pos hc]; exact h
    · rw [if_neg hc]; simp [List.nodup_append, h, hc]
  | unreg c => exact h.erase c

/-- A client outside the registry stays outside, and is never effectively
removed, along any event sequence that never registers it. -/
theorem effRemovals_stay_out (c : Nat) (r : List Nat) (evs : List RegEv)
    (hmem : c ∉ r) (hevs : ∀ e ∈ evs, e ≠ RegEv.reg c) :
    effRemovals c r evs = 0 ∧ c ∉ runEvs r evs := by
  induction evs generalizing r with
  | nil => exact ⟨rfl, hmem⟩
  | cons e evs ih =>
    have hne : e ≠ RegEv.reg c := hevs e (List.mem_cons_self e evs)
    have hnotmem : c ∉ applyEv r e := by
      cases e with
      | reg c' =>
        have hcc : c' ≠ c := fun h => hne (by rw [h])
        show c ∉ register_client r c'
        unfold register_client
        by_cases hin : c' ∈ r
        · rw [if_pos hin]; exact hmem
        · rw [if_neg hin]
          intro hm
          rcases List.mem_append.mp hm with hm | hm
          · exact hmem hm
          · exact hcc (List.mem_singleton.mp hm).symm
      | unreg c' =>
        show c ∉ List.erase r c'
        exact fun hm => hmem (List.mem_of_mem_erase hm)
    have hrec := ih (applyEv r e) hnotmem
      (fun e' he' => hevs e' (List.mem_cons_of_mem _ he'))
    refine ⟨?_, hrec.2⟩
    show (if e = RegEv.unreg c ∧ c ∈ r then 1 else 0) +
      effRemovals c (applyEv r e) evs = 0
    rw [if_neg fun h => hmem h.2, hrec.1]

/-- A registered client is effectively removed exactly once by any event
sequence that contains at least one `discard` of it and never re-registers
it; afterwards it is a member exactly when no `discard` occurred. -/
theorem effRemovals_once (c : Nat) (r : List Nat) (evs : List RegEv)
    (hnd : r.Nodup) (hmem : c ∈ r) (hevs : ∀ e ∈ evs, e ≠ RegEv.reg c) :
    effRemovals c r evs = (if RegEv.unreg c ∈ evs then 1 else 0) ∧
    (c ∈ runEvs r evs ↔ RegEv.unreg c ∉ evs) := by
  induction evs generalizing r with
  | nil => simpa [effRemovals, runEvs] using hmem
  | cons e evs ih =>
    have hevs' : ∀ e' ∈ evs, e' ≠ RegEv.reg c :=
      fun e' he' => hevs e' (List.mem_cons_of_mem _ he')
    by_cases he : e = RegEv.unreg c
    · subst he
      have hout : c ∉ (r.erase c) := by
        rw [hnd.mem_erase_iff]
        simp
      have hrest := effRemovals_stay_out c (r.erase c) evs hout hevs'
      constructor
      · show (if _ ∧ _ then 1 else 0) + effRemovals c (r.erase c) evs = _
        rw [if_pos ⟨rfl, hmem⟩, hrest.1]
        simp
      · show c ∈ runEvs (r.erase c) evs ↔ _
        simp [hrest.2]
    · have hne' : RegEv.unreg c ≠ e := fun h => he h.symm
      have hmem' : c ∈ applyEv r e := by
        cases e with
        | reg c' =>
          show c ∈ register_client r c'
          unfold register_client
          by_cases hin : c' ∈ r
          · rw [if_pos hin]; exact hmem
          · rw [if_neg hin]; exact List.mem_append_left _ hmem
        | unreg c' =>
          have hcc : c ≠ c' := fun h => he (by rw [h])
          exact (List.mem_erase_of_ne hcc).mpr hmem
      have hrec := ih (applyEv r e) (applyEv_nodup r e hnd) hmem' hevs'
      have hmemIff : (RegEv.unreg c ∈ e :: evs) ↔ (RegEv.unreg c ∈ evs) := by
        simp [List.mem_cons, hne']
      constructor
      · show (if _ ∧ _ then 1 else 0) + effRemovals c (applyEv r e) evs = _
        rw [if_neg fun h => he h.1, hrec.1]
        by_cases hin : RegEv.unreg c ∈ evs <;> simp [hin, hmemIff]
      · show c ∈ runEvs (applyEv r e) evs ↔ _
        rw [hrec.2]
        simp [hmemIff]

/-- C5: unregistration exactly once per connection.  `handle_client` emits,
for every exit path (clean close, `ConnectionClosed`, any other error), a
register followed — via `finally` — by one unregister.  Along the whole
connection lifetime, interleaved with any events of other clients and any
number of additional `discard`s of the same connection by the broadcast
loop's failed-delivery sweep (`mid` before the handler's own unregister,
`post` after it), the connection is effectively removed from the registry
exactly once, and is absent at the end. -/
theorem unregistration_exactly_once (p : ExitPath) (c : Nat)
    (r0 : List Nat) (mid post : List RegEv) (hnd : r0.Nodup) (hc : c ∉ r0)
    (hmid : ∀ e ∈ mid, touches c e = true → e = RegEv.unreg c)
    (hpost : ∀ e ∈ post, touches c e = true → e = RegEv.unreg c) :
    handle_client_events p c = [RegEv.reg c, RegEv.unreg c] ∧
    effRemovals c r0 (RegEv.reg c :: (mid ++ RegEv.unreg c :: post)) = 1 ∧
    c ∉ runEvs r0 (RegEv.reg c :: (mid ++ RegEv.unreg c :: post)) := by
  have hreg : applyEv r0 (RegEv.reg c) = r0 ++ [c] := by
    show register_client r0 c = r0 ++ [c]
    unfold register_client
    rw [if_neg hc]
  have hnd' : (r0 ++ [c]).Nodup := by simp [List.nodup_append, hnd, hc]
  have hmem : c ∈ r0 ++ [c] := List.mem_append_right _ (List.mem_singleton.mpr rfl)
  have hnoreg : ∀ e ∈ mid ++ RegEv.unreg c :: post, e ≠ RegEv.reg c := by
    intro e he hregc
    subst hregc
    have htch : touches c (RegEv.reg c) = true := by simp [touches]
    rcases List.mem_append.mp he with hm | hm
    · exact absurd (hmid _ hm htch) (by simp)
    · rcases List.mem_cons.mp hm with hm | hm
      · exact absurd hm (by simp)
      · exact absurd (hpost _ hm htch) (by simp)
  have hunregIn : RegEv.unreg c ∈ mid ++ RegEv.unreg c :: post :=
    List.mem_append_right _ (List.mem_cons_self _ _)
  have hmain := effRemovals_once c (r0 ++ [c])
    (mid ++ RegEv.unreg c :: post) hnd' hmem hnoreg
  refine ⟨by cases p <;> rfl, ?_, ?_⟩
  · show (if _ ∧ _ then 1 else 0) +
      effRemovals c (applyEv r0 (RegEv.reg c)) (mid ++ RegEv.unreg c :: post)
        = 1
    rw [if_neg fun h => by simpa using h.1, hreg, hmain.1, if_pos hunregIn]
  · show c ∉ runEvs (applyEv r0 (RegEv.reg c)) (mid ++ RegEv.unreg c :: post)
    rw [hreg]
    exact fun hm => (hmain.2.mp hm) hunregIn

/-- Closed instance of C5: connection `5` is registered, swept once by the
broadcast loop, unregistered by the handler's `finally`, and swept once more
afterwards — one effective removal in total. -/
theorem unregistration_exactly_once_witness :
    effRemovals 5 [1, 2]
        (RegEv.reg 5 ::
          ([RegEv.unreg 5, RegEv.reg 2] ++ RegEv.unreg 5 :: [RegEv.unreg 5]))
      = 1 :=
  (unregistration_exactly_once ExitPath.connClosed 5 [1, 2]
    [RegEv.unreg 5, RegEv.reg 2] [RegEv.unreg 5] (by decide) (by decide)
    (by decide) (by decide)).2.1

/-! ### Helper lemma for the stats collector -/

/-- Inversion for a successful `Except` bind. -/
theorem exceptBind_ok {ε α β : Type} {x : Except ε α} {f : α → Except ε β}
    {b : β} (h : Except.bind x f = Except.ok b) :
    ∃ a, x = Except.ok a ∧ f a = Except.ok b := by
  cases x with
  | error e => simp [Except.bind] at h
  | ok a => exact ⟨a, rfl, h⟩

/-- When the `try` body completes, the snapshot has exactly the eleven
top-level keys assembled at lines 296-372. -/
theorem statsTryBlock_ok_keys (env : StatsEnv) (d : List (String × PyVal))
    (h : statsTryBlock env = Except.ok d) :
    d.map Prod.fst =
      ["timestamp", "system", "cpu", "memory", "swap", "disk", "network",
       "processes", "temperature", "custom_sensors", "battery"] := by
  simp only [statsTryBlock, bind] at h
  obtain ⟨_, -, h⟩ := exceptBind_ok h
  obtain ⟨_, -, h⟩ := exceptBind_ok h
  obtain ⟨_, -, h⟩ := exceptBind_ok h
  obtain ⟨_, -, h⟩ := exceptBind_ok h
  obtain ⟨_, -, h⟩ := exceptBind_ok h
  obtain ⟨_, -, h⟩ := exceptBind_ok h
  obtain ⟨_, -, h⟩ := exceptBind_ok h
  obtain ⟨_, -, h⟩ := exceptBind_ok h
  obtain ⟨_, -, h⟩ := exceptBind_ok h
  obtain ⟨_, -, h⟩ := exceptBind_ok h
  obtain ⟨_, -, h⟩ := exceptBind_ok h
  obtain ⟨_, -, h⟩ := exceptBind_ok h
  obtain ⟨_, -, h⟩ := exceptBind_ok h
  obtain ⟨_, -, h⟩ := exceptBind_ok h
  simp only [pure, Except.pure, Except.ok.injEq] at h
  subst h
  rfl

/-- C4: collector totality and degradation.  `get_stats` is total (the
embedding returns a dictionary for every environment — the `except` handler
catches every exception of the `try` body), its result always starts with the
`timestamp` key, and on any internal failure the result is exactly the
two-key dictionary `{'timestamp': ..., 'error': str(e)}`, so the broadcast
loop needs no failure handling for this call. -/
theorem get_stats_total_and_degrades (env : StatsEnv) :
    ((get_stats env).map Prod.fst).head? = some "timestamp" ∧
    (∀ e, statsTryBlock env = Except.error e →
      get_stats env =
        [("timestamp", PyVal.pyStr env.timestamp),
         ("error", PyVal.pyStr e.msg)]) ∧
    (∀ e, statsTryBlock env = Except.error e →
      (get_stats env).map Prod.fst = ["timestamp", "error"]) := by
  have hdeg : ∀ e, statsTryBlock env = Except.error e →
      get_stats env =
        [("timestamp", PyVal.pyStr env.timestamp),
         ("error", PyVal.pyStr e.msg)] := by
    intro e he
    unfold get_stats
    rw [he]
  refine ⟨?_, hdeg, fun e he => by rw [hdeg e he]; rfl⟩
  unfold get_stats
  cases h : statsTryBlock env with
  | ok d => rw [statsTryBlock_ok_keys env d h]; rfl
  | error e => rfl

/-- Closed instance of C4: a `psutil.cpu_percent` failure degrades the
snapshot to exactly `{'timestamp', 'error'}`. -/
theorem get_stats_total_and_degrades_witness :
    get_stats
        { timestamp := "t0", cpuPercent := Except.error ⟨"boom"⟩,
          cpuCount := Except.ok 4, cpuCountLogical := Except.ok 4,
          cpuFreq := Except.ok none, cpuPerCore := Except.ok [],
          virtualMemory := Except.ok [], swapMemory := Except.ok [],
          diskRoot := Except.ok [], diskIo := Except.ok [],
          diskPartitions := Except.ok [], netIo := Except.ok [],
          netIfAddrs := Except.ok [], processes := Except.ok [],
          bootTime := Except.ok "b", uptimeSeconds := 0, uptimeHuman := "",
          loadAvg := none, battery := none, sensorsTemps := [],
          piTemperature := none, ultrasonic := PyVal.pyNone,
          turbidity := PyVal.pyStr "Clear", ambientTemp := 25, phLevel := 7,
          gpioAvailable := false, connectedClients := 0 } =
      [("timestamp", PyVal.pyStr "t0"), ("error", PyVal.pyStr "boom")] :=
  (get_stats_total_and_degrades
    { timestamp := "t0", cpuPercent := Except.error ⟨"boom"⟩,
      cpuCount := Except.ok 4, cpuCountLogical := Except.ok 4,
      cpuFreq := Except.ok none, cpuPerCore := Except.ok [],
      virtualMemory := Except.ok [], swapMemory := Except.ok [],
      diskRoot := Except.ok [], diskIo := Except.ok [],
      diskPartitions := Except.ok [], netIo := Except.ok [],
      netIfAddrs := Except.ok [], processes := Except.ok [],
      bootTime := Except.ok "b", uptimeSeconds := 0, uptimeHuman := "",
      loadAvg := none, battery := none, sensorsTemps := [],
      piTemperature := none, ultrasonic := PyVal.pyNone,
      turbidity := PyVal.pyStr "Clear", ambientTemp := 25, phLevel := 7,
      gpioAvailable := false, connectedClients := 0 }).2.1 ⟨"boom"⟩ rfl

/-! ### Helper lemma for the simulated sensor ranges -/

/-- `round(x, 2)` stays between two bounds that are multiples of `1/100`. -/
theorem pyRound2_bounds (x : ℚ) (lo hi : ℤ) (h1 : (lo : ℚ) ≤ 100 * x)
    (h2 : 100 * x ≤ (hi : ℚ)) :
    (lo : ℚ) / 100 ≤ pyRound2 x ∧ pyRound2 x ≤ (hi : ℚ) / 100 := by
  have hr : round (100 * x) = ⌊100 * x + 1 / 2⌋ := round_eq _
  have hlow : lo ≤ round (100 * x) := by
    rw [hr]
    exact Int.le_floor.mpr (by linarith)
  have hhigh : round (100 * x) ≤ hi := by
    rw [hr]
    have hlt : ⌊100 * x + 1 / 2⌋ < hi + 1 :=
      Int.floor_lt.mpr (by push_cast; linarith)
    exact Int.lt_add_one_iff.mp hlt
  have hlow' : (lo : ℚ) ≤ (round (100 * x) : ℤ) := by exact_mod_cast hlow
  have hhigh' : ((round (100 * x) : ℤ) : ℚ) ≤ (hi : ℚ) := by
    exact_mod_cast hhigh
  unfold pyRound2
  constructor <;> linarith

/-- C9: simulated sensor ranges.  With the hardware path unavailable, the
simulated fallbacks return numbers (rationals, never a Python `None`) inside
the documented ranges: `get_ambient_temp` in [20, 30] (its `uniform(-3, 3)`
spread around 25 even keeps it in [22, 28]), `get_ultrasonic_distance` in
[23, 27], and `get_ph_level` in [6.7, 7.3], for every value the uniform draw
can take. -/
theorem simulated_sensor_ranges :
    (∀ v : ℚ, -3 ≤ v → v ≤ 3 →
      20 ≤ ambient_temp_sim v ∧ ambient_temp_sim v ≤ 30) ∧
    (∀ v : ℚ, -2 ≤ v → v ≤ 2 →
      23 ≤ ultrasonic_distance_sim v ∧ ultrasonic_distance_sim v ≤ 27) ∧
    (∀ v : ℚ, -3/10 ≤ v → v ≤ 3/10 →
      67/10 ≤ ph_level_sim v ∧ ph_level_sim v ≤ 73/10) := by
  refine ⟨fun v h1 h2 => ?_, fun v h1 h2 => ?_, fun v h1 h2 => ?_⟩
  · have h := pyRound2_bounds (25 + v) 2200 2800 (by push_cast; linarith)
      (by push_cast; linarith)
    unfold ambient_temp_sim
    constructor <;> [linarith [h.1]; linarith [h.2]]
  · have h := pyRound2_bounds (25 + v) 2300 2700 (by push_cast; linarith)
      (by push_cast; linarith)
    unfold ultrasonic_distance_sim
    constructor <;> [linarith [h.1]; linarith [h.2]]
  · have h := pyRound2_bounds (7 + v) 670 730 (by push_cast; linarith)
      (by push_cast; linarith)
    unfold ph_level_sim
    constructor <;> [linarith [h.1]; linarith [h.2]]

/-- Closed instance of C9 at concrete uniform draws. -/
theorem simulated_sensor_ranges_witness :
    (20 ≤ ambient_temp_sim (5/2) ∧ ambient_temp_sim (5/2) ≤ 30) ∧
    (23 ≤ ultrasonic_distance_sim (-2) ∧ ultrasonic_distance_sim (-2) ≤ 27) ∧
    (67/10 ≤ ph_level_sim (1/4) ∧ ph_level_sim (1/4) ≤ 73/10) :=
  ⟨simulated_sensor_ranges.1 (5/2) (by norm_num) (by norm_num),
   simulated_sensor_ranges.2.1 (-2) (by norm_num) (by norm_num),
   simulated_sensor_ranges.2.2 (1/4) (by norm_num) (by norm_num)⟩

end NervaPi
